import Mathlib

/-!
Verification of the pixel-agents gateway bridge.

Shallow embedding of the bridge's core components:
- the event translator (src/unnamed/part_003 / eventTranslator.ts),
- the gateway client (src/server/gatewayClient.ts),
- the dashboard server snapshot replay (src/server/dashboardServer.ts),
- the observer-side WebSocket client (src/src/api/wsClient.ts).

Pure functions from the source become Lean functions; stateful classes
become explicit state records with step functions returning the new state
together with the list of messages or request outcomes produced.
-/

set_option maxHeartbeats 1000000

namespace PixelAgents

/-! ## Shared types (src/server/types.ts) -/

/-- Gateway connection state (`GatewayConnectionState`). -/
inductive GatewayConnState
  | connecting
  | connected
  | disconnected
  | handshaking
  | error
deriving DecidableEq, Repr

/-- Agent status (`AgentStatus`). -/
inductive AgentStatus
  | idle
  | busy
  | error
  | waiting_approval
deriving DecidableEq, Repr

/-- A tool invocation tracked per agent (`TrackedTool`). -/
structure TrackedTool where
  toolId : String
  name : String
  status : String
  startedAt : Nat
  completedAt : Option Nat
  done : Bool
  permissionWait : Bool
deriving DecidableEq, Repr

/-- An agent tracked by the translator (`TrackedAgent`). -/
structure TrackedAgent where
  id : Nat
  sessionKey : String
  name : String
  status : AgentStatus
  currentTask : Option String
  currentRunId : Option String
  toolHistory : List TrackedTool
  createdAt : Nat
deriving DecidableEq, Repr

/-- Messages sent from the bridge to observers (`DashboardMessage`).
Opaque asset/layout payloads (sprite catalogs, layouts) are elided: the
claims only concern which messages are sent, and in which order. -/
inductive DashboardMessage
  | layoutLoaded (layout : Option Unit)
  | existingAgents (agents : List Nat)
  | agentCreated (id : Nat) (name : String)
  | agentClosed (id : Nat)
  | agentToolStart (id : Nat) (toolId : String) (status : String)
  | agentToolDone (id : Nat) (toolId : String)
  | agentToolsClear (id : Nat)
  | agentStatus (id : Nat) (status : String)
  | agentToolPermission (id : Nat)
  | agentToolPermissionClear (id : Nat)
  | agentError (id : Nat) (error : String)
  | connectionStatus (gateway : GatewayConnState) (detail : Option String)
  | settingsLoaded (soundEnabled : Bool)
  | characterSpritesLoaded
  | floorTilesLoaded
  | wallTilesLoaded
  | furnitureAssetsLoaded
deriving DecidableEq, Repr

/-! ## Tool status formatting (eventTranslator.ts, `basename` / `formatToolStatus`) -/

/-- The `input` record of a tool event.  The source accesses only the
fields `file_path`, `command` and `description`; a missing field is
`none`. -/
structure ToolInput where
  file_path : Option String := none
  command : Option String := none
  description : Option String := none
deriving DecidableEq, Repr

/-- JS `String.prototype.split('/')` on a character list: always returns a
non-empty list of segments; `""` splits to `[""]`. -/
def splitSlash : List Char → List (List Char)
  | [] => [[]]
  | c :: cs =>
    match splitSlash cs with
    | [] => [[]]
    | g :: gs => if c = '/' then [] :: g :: gs else (c :: g) :: gs

/-- `basename(p)`: empty string for a non-string argument, last
`/`-separated component otherwise (JS `p.split('/').pop() ?? p`). -/
def basename (p : Option String) : String :=
  match p with
  | none => ""
  | some s => String.mk ((splitSlash s.data).getLastD s.data)

/-- `formatToolStatus(toolName, input)`: the switch from
eventTranslator.ts, translated case by case. -/
def formatToolStatus (toolName : String) (input : ToolInput) : String :=
  if toolName = "Read" then "Reading " ++ basename input.file_path
  else if toolName = "Edit" then "Editing " ++ basename input.file_path
  else if toolName = "Write" then "Writing " ++ basename input.file_path
  else if toolName = "Bash" then
    let cmd := input.command.getD ""
    "Running: " ++ (if 60 < cmd.length then cmd.take 60 ++ "…" else cmd)
  else if toolName = "Glob" then "Searching files"
  else if toolName = "Grep" then "Searching code"
  else if toolName = "WebFetch" then "Fetching web content"
  else if toolName = "WebSearch" then "Searching the web"
  else if toolName = "Task" then
    let desc := input.description.getD ""
    if desc = "" then "Running subtask"
    else "Subtask: " ++ (if 80 < desc.length then desc.take 80 ++ "…" else desc)
  else if toolName = "browser_navigate" then "Opening browser"
  else if toolName = "browser_click" then "Clicking in browser"
  else if toolName = "browser_type" then "Typing in browser"
  else if toolName = "browser_snapshot" then "Reading browser page"
  else "Using " ++ toolName

/-- The tool names the `formatToolStatus` switch handles specially. -/
def knownToolNames : List String :=
  ["Read", "Edit", "Write", "Bash", "Glob", "Grep", "WebFetch", "WebSearch",
   "Task", "browser_navigate", "browser_click", "browser_type", "browser_snapshot"]

/-! ## Association lists (JS `Map<string, _>` with insertion order) -/

/-- `Map.get`: first entry with the given key. -/
def lookupA {α : Type} : List (String × α) → String → Option α
  | [], _ => none
  | e :: es, k => if e.1 = k then some e.2 else lookupA es k

/-- In-place mutation of the entry found by the first lookup (JS object
mutation through the reference returned by `Map.get`). -/
def setA {α : Type} : List (String × α) → String → α → List (String × α)
  | [], _, _ => []
  | e :: es, k, v => if e.1 = k then (k, v) :: es else e :: setA es k v

/-! ## EventTranslator (eventTranslator.ts) -/

/-- The fields of a lifecycle stream payload the translator reads
(after the `payload?.data ?? payload` flattening done at each access). -/
structure LifecyclePayload where
  phase : Option String
  sessionKey : Option String
  runId : Option String := none
  error : Option String := none

/-- The fields of a tool stream payload the translator reads (with
`toolEvent = payload?.data ?? payload`, `phase = toolEvent?.phase ??
toolEvent?.type`, `toolName = toolEvent?.toolName ?? toolEvent?.name`). -/
structure ToolPayload where
  sessionKey : Option String
  phase : Option String
  toolName : Option String := none
  input : ToolInput := {}
  toolId : Option String := none

/-- Mutable state of `EventTranslator`. -/
structure TranslatorState where
  agents : List (String × TrackedAgent)
  nextAgentId : Nat
  sessionToId : List (String × Nat)
  toolIdCounter : Nat
deriving DecidableEq, Repr

/-- Translator state at construction. -/
def initTranslator : TranslatorState :=
  { agents := [], nextAgentId := 1, sessionToId := [], toolIdCounter := 0 }

/-- `handleLifecycleEvent`: returns the new state and the dashboard
messages emitted, in order. -/
def handleLifecycleEvent (st : TranslatorState) (p : LifecyclePayload) (now : Nat) :
    TranslatorState × List DashboardMessage :=
  match p.sessionKey with
  | none => (st, [])
  | some sessionKey =>
    if p.phase = some "start" then
      match lookupA st.sessionToId sessionKey with
      | none =>
        let id := st.nextAgentId
        let agent : TrackedAgent :=
          { id := id, sessionKey := sessionKey, name := "Agent #" ++ toString id,
            status := .busy, currentTask := none, currentRunId := p.runId,
            toolHistory := [], createdAt := now }
        ({ st with nextAgentId := st.nextAgentId + 1,
                   sessionToId := st.sessionToId ++ [(sessionKey, id)],
                   agents := st.agents ++ [(sessionKey, agent)] },
         [.agentCreated id agent.name, .agentStatus id "active"])
      | some id =>
        let st' :=
          match lookupA st.agents sessionKey with
          | some agent =>
            let agent' := { agent with
              status := AgentStatus.busy
              currentRunId := p.runId
              toolHistory := ([] : List TrackedTool) }
            { st with agents := setA st.agents sessionKey agent' }
          | none => st
        (st', [.agentStatus id "active"])
    else if p.phase = some "end" then
      match lookupA st.sessionToId sessionKey with
      | none => (st, [])
      | some id =>
        let st' :=
          match lookupA st.agents sessionKey with
          | some agent =>
            let agent' := { agent with
              status := AgentStatus.idle
              currentRunId := (none : Option String) }
            { st with agents := setA st.agents sessionKey agent' }
          | none => st
        (st', [.agentToolsClear id, .agentStatus id "waiting"])
    else if p.phase = some "error" then
      match lookupA st.sessionToId sessionKey with
      | none => (st, [])
      | some id =>
        let st' :=
          match lookupA st.agents sessionKey with
          | some agent =>
            let agent' := { agent with status := AgentStatus.error }
            { st with agents := setA st.agents sessionKey agent' }
          | none => st
        (st', [.agentError id (p.error.getD "Unknown error")])
    else (st, [])

/-- `tool.done = true; tool.completedAt = Date.now()` on the entry found by
`toolHistory.find(t => t.toolId === toolId)`; a no-op when none matches. -/
def markToolDone (hist : List TrackedTool) (toolId : String) (now : Nat) : List TrackedTool :=
  match hist with
  | [] => []
  | t :: ts =>
    if t.toolId = toolId then { t with done := true, completedAt := some now } :: ts
    else t :: markToolDone ts toolId now

/-- `handleToolEvent`: returns the new state and the dashboard messages
emitted, in order.  The tool-id counter is bumped exactly when the event
carries no `toolId` (the JS default expression runs then). -/
def handleToolEvent (st : TranslatorState) (p : ToolPayload) (now : Nat) :
    TranslatorState × List DashboardMessage :=
  match p.sessionKey with
  | none => (st, [])
  | some sessionKey =>
    match lookupA st.sessionToId sessionKey with
    | none => (st, [])
    | some id =>
      let toolName := p.toolName.getD "unknown"
      let toolId := p.toolId.getD ("tool-" ++ toString (st.toolIdCounter + 1))
      let st1 := { st with toolIdCounter :=
        if p.toolId = none then st.toolIdCounter + 1 else st.toolIdCounter }
      if p.phase = some "start" ∨ p.phase = some "tool_start" then
        let status := formatToolStatus toolName p.input
        let st' :=
          match lookupA st1.agents sessionKey with
          | some agent =>
            let entry : TrackedTool :=
              { toolId := toolId, name := toolName, status := status,
                startedAt := now, completedAt := none, done := false,
                permissionWait := false }
            let agent' := { agent with
              currentTask := some status
              toolHistory := agent.toolHistory ++ [entry] }
            { st1 with agents := setA st1.agents sessionKey agent' }
          | none => st1
        (st', [.agentToolStart id toolId status])
      else if p.phase = some "end" ∨ p.phase = some "tool_end" then
        let st' :=
          match lookupA st1.agents sessionKey with
          | some agent =>
            let agent' := { agent with toolHistory := markToolDone agent.toolHistory toolId now }
            { st1 with agents := setA st1.agents sessionKey agent' }
          | none => st1
        (st', [.agentToolDone id toolId])
      else (st1, [])

/-- `handleApprovalRequest`. -/
def handleApprovalRequest (st : TranslatorState) (sessionKey? : Option String) :
    TranslatorState × List DashboardMessage :=
  match sessionKey? with
  | none => (st, [])
  | some sessionKey =>
    match lookupA st.sessionToId sessionKey with
    | none => (st, [])
    | some id =>
      let st' :=
        match lookupA st.agents sessionKey with
        | some agent =>
          let agent' := { agent with status := AgentStatus.waiting_approval }
          { st with agents := setA st.agents sessionKey agent' }
        | none => st
      (st', [.agentToolPermission id])

/-- The gateway events `handleGatewayEvent` dispatches to the three
translator handlers. -/
inductive GatewayEv
  | lifecycle (p : LifecyclePayload) (now : Nat)
  | tool (p : ToolPayload) (now : Nat)
  | approval (sessionKey : Option String)

/-- One dispatched gateway event. -/
def stepTranslator (st : TranslatorState) (ev : GatewayEv) :
    TranslatorState × List DashboardMessage :=
  match ev with
  | .lifecycle p now => handleLifecycleEvent st p now
  | .tool p now => handleToolEvent st p now
  | .approval sk => handleApprovalRequest st sk

/-- Processing a sequence of gateway events. -/
def runTranslator (st : TranslatorState) : List GatewayEv → TranslatorState
  | [] => st
  | ev :: evs => runTranslator (stepTranslator st ev).1 evs

/-- An event's session key is untracked: absent, or not in the
`sessionKey → id` map. -/
def unknownSession (st : TranslatorState) : Option String → Prop
  | none => True
  | some s => lookupA st.sessionToId s = none

instance (st : TranslatorState) (k : Option String) : Decidable (unknownSession st k) := by
  unfold unknownSession
  cases k
  · exact inferInstanceAs (Decidable True)
  · exact inferInstanceAs (Decidable (_ = none))

/-! ## GatewayClient (src/server/gatewayClient.ts)

The class is modelled as a state record.  Promise settlement is made
observable as a list of `ReqOutcome` values returned alongside the new
state.  Timers are modelled as optional fields: a reconnect timer stores
the delay it was armed with; the tick timer stores its interval. -/

/-- Settlement of one pending request's promise. -/
inductive ReqOutcome
  | resolved (id : String)
  | rejected (id : String) (msg : String)
deriving DecidableEq, Repr

/-- Mutable state of `GatewayClient`. -/
structure GWState where
  ws : Bool
  conn : GatewayConnState
  reconnectTimer : Option Nat
  reconnectDelay : Nat
  tickTimer : Option Nat
  requestId : Nat
  pending : List String
deriving DecidableEq, Repr

/-- `GatewayClient` field initializers. -/
def initGW : GWState :=
  { ws := false, conn := .disconnected, reconnectTimer := none, reconnectDelay := 1000,
    tickTimer := none, requestId := 0, pending := [] }

/-- `maxReconnectDelay = 30000`. -/
def maxReconnectDelay : Nat := 30000

/-- `scheduleReconnect()`: a no-op if a timer is already armed; otherwise
arms a timer with the current delay and doubles the delay up to the
ceiling. -/
def scheduleReconnect (st : GWState) : GWState :=
  match st.reconnectTimer with
  | some _ => st
  | none =>
    { st with
      reconnectTimer := some st.reconnectDelay
      reconnectDelay := min (st.reconnectDelay * 2) maxReconnectDelay }

/-- The reconnect timer firing: it clears itself and calls `connect()`
(whose outcome is driven by the separately modelled socket events). -/
def fireReconnectTimer (st : GWState) : GWState :=
  { st with reconnectTimer := none }

/-- `onConnected(helloPayload)`: reset delay to 1s, state `connected`,
start the keepalive at the advertised interval (default 15000). -/
def onConnected (st : GWState) (tickIntervalMs : Option Nat) : GWState :=
  { st with
    reconnectDelay := 1000
    conn := .connected
    tickTimer := some (tickIntervalMs.getD 15000) }

/-- `handleFrame` on a `res` frame for request `id`.  `helloOk` is
whether `frame.ok` holds and the payload identifies as `hello-ok`;
`errMsg` is `frame.error?.message`. -/
def handleRes (st : GWState) (id : String) (ok : Bool) (helloOk : Bool)
    (errMsg : Option String) (tickIntervalMs : Option Nat) : GWState × List ReqOutcome :=
  if id ∈ st.pending then
    let st1 := { st with pending := st.pending.erase id }
    if ok then
      (if helloOk then onConnected st1 tickIntervalMs else st1, [.resolved id])
    else
      (st1, [.rejected id (errMsg.getD "Request failed")])
  else (st, [])

/-- `request(method, params, timeoutMs)`: rejects immediately when not
connected; otherwise registers a fresh correlation id `pa-<n>` in the
pending map and sends the frame.  Returns the id registered, if any. -/
def requestGW (st : GWState) : GWState × Option String :=
  if st.conn = GatewayConnState.connected then
    let id := "pa-" ++ toString (st.requestId + 1)
    ({ st with requestId := st.requestId + 1, pending := st.pending ++ [id] }, some id)
  else (st, none)

/-- A request's timeout timer firing.  The timer is armed in `request`
and cleared by `handleFrame` when the response settles the request, so it
can only fire while its id is still pending; the guard mirrors that. -/
def expireRequest (st : GWState) (id : String) (method : String) : GWState × List ReqOutcome :=
  if id ∈ st.pending then
    ({ st with pending := st.pending.erase id },
     [.rejected id ("Request " ++ method ++ " timed out")])
  else (st, [])

/-- `cleanup()`: stop the keepalive, reject every pending request with
"Connection closed", empty the pending map, drop the socket. -/
def cleanupGW (st : GWState) : GWState × List ReqOutcome :=
  ({ st with tickTimer := none, pending := [], ws := false },
   st.pending.map (fun id => .rejected id "Connection closed"))

/-- `disconnect()`: cancel the reconnect timer, run `cleanup()`, and
force the state to `disconnected`.  (The `if (this.ws)` close that
follows `cleanup()` in the source is dead: `cleanup()` nulled `ws`.) -/
def disconnectGW (st : GWState) : GWState × List ReqOutcome :=
  let st1 := { st with reconnectTimer := none }
  let r := cleanupGW st1
  ({ r.1 with conn := .disconnected }, r.2)

/-- The socket `close` handler: `cleanup()`, state `disconnected`,
`scheduleReconnect()`. -/
def onSocketClose (st : GWState) : GWState × List ReqOutcome :=
  let r := cleanupGW st
  (scheduleReconnect { r.1 with conn := .disconnected }, r.2)

/-- One failed reconnection attempt: the armed timer fires, `connect()`
runs, the attempt fails and the socket `close` handler runs. -/
def failedAttempt (st : GWState) : GWState :=
  (onSocketClose (fireReconnectTimer st)).1

/-! ## Observer-side WebSocketClient (src/src/api/wsClient.ts) -/

/-- Mutable state of the browser `WebSocketClient`.  The backoff fields
mirror the source; the buffered and in-flight messages are the
serialized strings. -/
structure WsClientState where
  wsOpen : Bool
  reconnectDelay : Nat
  sendBuffer : List String
deriving DecidableEq, Repr

/-- `maxBufferSize = 100`. -/
def maxBufferSize : Nat := 100

/-- `postMessage(msg)`: send directly when the socket is open, else
append to the buffer and drop the oldest entry when over capacity.
Returns the new state and the messages put on the wire. -/
def postMessage (st : WsClientState) (msg : String) : WsClientState × List String :=
  if st.wsOpen then (st, [msg])
  else
    let buf := st.sendBuffer ++ [msg]
    ({ st with sendBuffer := if maxBufferSize < buf.length then buf.tail else buf }, [])

/-- The socket `onopen` handler: state connected, delay reset, buffered
messages flushed in order, buffer emptied, then `webviewReady` posted on
the now-open socket.  Returns the new state and the wire messages. -/
def onOpen (st : WsClientState) : WsClientState × List String :=
  let st1 := { st with wsOpen := true, reconnectDelay := 1000 }
  let flushed := st1.sendBuffer
  let st2 := { st1 with sendBuffer := [] }
  let r := postMessage st2 "webviewReady"
  (r.1, flushed ++ r.2)

/-- Posting a sequence of messages. -/
def postAll (st : WsClientState) : List String → WsClientState
  | [] => st
  | m :: ms => postAll (postMessage st m).1 ms

/-! ## DashboardServer initial snapshot (src/server/dashboardServer.ts) -/

/-- Which of the four asset loaders return data (non-null) for the
current assets root. -/
structure AssetAvailability where
  chars : Bool
  floor : Bool
  wall : Bool
  furniture : Bool
deriving DecidableEq, Repr

/-- `sendInitialState(ws)`: the ordered list of messages written to a
newly attached observer, as a function of the loadable assets, the
layout, the tracked agents (`translator.getTrackedAgents()`) and the
gateway state. -/
def sendInitialState (assets : AssetAvailability) (layout : Option Unit)
    (agents : List TrackedAgent) (gw : GatewayConnState) : List DashboardMessage :=
  (if assets.chars then [.characterSpritesLoaded] else []) ++
  (if assets.floor then [.floorTilesLoaded] else []) ++
  (if assets.wall then [.wallTilesLoaded] else []) ++
  (if assets.furniture then [.furnitureAssetsLoaded] else []) ++
  [.settingsLoaded true] ++
  [.existingAgents (agents.map (fun a => a.id))] ++
  [.layoutLoaded layout] ++
  (agents.flatMap (fun agent =>
    if agent.status = AgentStatus.busy then
      DashboardMessage.agentStatus agent.id "active" ::
        agent.toolHistory.flatMap (fun tool =>
          if tool.done then [] else [.agentToolStart agent.id tool.toolId tool.status])
    else if agent.status = AgentStatus.error then
      [DashboardMessage.agentStatus agent.id "error"]
    else [])) ++
  [.connectionStatus gw none]

/-- Modelled from the spec (§4.4, claim C6): the message kinds the claim's
fixed replay order enumerates.  The snapshot kinds owned by external
collaborators (`settingsLoaded`, `layoutLoaded`) are outside it. -/
def claimSnapshotKind : DashboardMessage → Bool
  | .settingsLoaded _ => false
  | .layoutLoaded _ => false
  | _ => true

/-- Modelled from the spec (§4.4, claim C6): the per-agent replay the
claim describes — for a busy agent `agentStatus(active)` then one
`agentToolStart` per open (not done) tool in its history; for an error
agent `agentStatus(error)`; nothing otherwise. -/
def specAgentReplay (agent : TrackedAgent) : List DashboardMessage :=
  if agent.status = AgentStatus.busy then
    DashboardMessage.agentStatus agent.id "active" ::
      (agent.toolHistory.filter (fun tool => !tool.done)).map
        (fun tool => DashboardMessage.agentToolStart agent.id tool.toolId tool.status)
  else if agent.status = AgentStatus.error then
    [DashboardMessage.agentStatus agent.id "error"]
  else []

/-- True exactly for `agentToolDone` messages. -/
def isAgentToolDone : DashboardMessage → Bool
  | .agentToolDone _ _ => true
  | _ => false

/-! ## Invariant and concrete demonstration states -/

/-- The id-assignment invariant of the translator: the `sessionKey → id`
entries carry the ids `1, 2, …, n` in insertion order, the next id to
hand out is `n + 1`, and no session key occurs twice. -/
def GoodIds (st : TranslatorState) : Prop :=
  st.sessionToId.map Prod.snd = List.range' 1 st.sessionToId.length ∧
  st.nextAgentId = st.sessionToId.length + 1 ∧
  (st.sessionToId.map Prod.fst).Nodup

/-- A first `lifecycle.start` for session key `s`. -/
def demoStartPayload : LifecyclePayload :=
  { phase := some "start", sessionKey := some "s" }

/-- The translator state after one `lifecycle.start` for session `s`. -/
def demoState1 : TranslatorState :=
  (handleLifecycleEvent initTranslator demoStartPayload 0).1

/-- The agent tracked in `demoState1`. -/
def demoAgent1 : TrackedAgent :=
  { id := 1, sessionKey := "s", name := "Agent #1", status := .busy,
    currentTask := none, currentRunId := none, toolHistory := [], createdAt := 0 }

/-- A `tool.start` for session `s` carrying the explicit tool id
`tool-1` — a string in the namespace of the translator's generated
fallback ids. -/
def c10StartPayload : ToolPayload :=
  { sessionKey := some "s", phase := some "start", toolName := some "Bash",
    input := {}, toolId := some "tool-1" }

/-- The state after that `tool.start`: the agent's history holds one open
tool with id `tool-1`, and the tool-id counter is still 0. -/
def c10State : TranslatorState :=
  (handleToolEvent demoState1 c10StartPayload 0).1

/-- A `tool.end` for session `s` carrying no tool id. -/
def c10EndPayload : ToolPayload :=
  { sessionKey := some "s", phase := some "end", toolId := none }

end PixelAgents

namespace PixelAgents

/-! ## Helper lemmas -/

theorem lookupA_eq_none_iff {α : Type} (l : List (String × α)) (k : String) :
    lookupA l k = none ↔ k ∉ l.map Prod.fst := by
  induction l with
  | nil => simp [lookupA]
  | cons e es ih =>
    simp only [lookupA, List.map_cons, List.mem_cons]
    by_cases h : e.1 = k
    · simp [h]
    · simp only [h, if_false, ih]
      constructor
      · intro hk hc
        rcases hc with hc | hc
        · exact h hc.symm
        · exact hk hc
      · intro hk hc
        exact hk (Or.inr hc)

theorem lookupA_setA_self {α : Type} (l : List (String × α)) (k : String) (w : α)
    (h : (lookupA l k).isSome) : lookupA (setA l k w) k = some w := by
  induction l with
  | nil => simp [lookupA] at h
  | cons e es ih =>
    by_cases hk : e.1 = k
    · rw [setA, if_pos hk, lookupA, if_pos rfl]
    · rw [lookupA, if_neg hk] at h
      rw [setA, if_neg hk, lookupA, if_neg hk]
      exact ih h

theorem setA_lookup_self {α : Type} (l : List (String × α)) (k : String) (v : α)
    (h : lookupA l k = some v) : setA l k v = l := by
  induction l with
  | nil => rfl
  | cons e es ih =>
    by_cases hk : e.1 = k
    · have hv : e.2 = v := by
        rw [lookupA, if_pos hk] at h
        exact Option.some.inj h
      rw [setA, if_pos hk, ← hk, ← hv]
    · have h' : lookupA es k = some v := by
        rw [lookupA, if_neg hk] at h
        exact h
      rw [setA, if_neg hk, ih h']

theorem min_double_ceiling (a : Nat) : min (min a 30000 * 2) 30000 = min (a * 2) 30000 := by
  rcases Nat.le_total a 30000 with h | h
  · rw [Nat.min_eq_left h]
  · rw [Nat.min_eq_right h, Nat.min_eq_right (by omega), Nat.min_eq_right (by omega)]

theorem failedAttempt_reconnect (st : GWState) :
    (failedAttempt st).reconnectTimer = some st.reconnectDelay ∧
    (failedAttempt st).reconnectDelay = min (st.reconnectDelay * 2) maxReconnectDelay := by
  simp [failedAttempt, onSocketClose, cleanupGW, fireReconnectTimer, scheduleReconnect]

/-! ## Claim theorems -/

/-- Claim C3: the reconnect delay starts at 1s; after the (n+1)-th
consecutive failed attempt the armed timer holds `min (2^n * 1000) 30000`
milliseconds and the stored delay has doubled up to the 30s ceiling;
scheduling while a timer is armed is a no-op (at most one timer
outstanding); a matching `hello-ok` response resets the delay to 1s. -/
theorem gateway_backoff :
    initGW.reconnectDelay = 1000 ∧
    maxReconnectDelay = 30000 ∧
    (∀ st : GWState, st.reconnectTimer = none →
      (scheduleReconnect st).reconnectTimer = some st.reconnectDelay ∧
      (scheduleReconnect st).reconnectDelay = min (st.reconnectDelay * 2) 30000) ∧
    (∀ st : GWState, ∀ d : Nat, st.reconnectTimer = some d → scheduleReconnect st = st) ∧
    (∀ st : GWState, ∀ id : String, ∀ errMsg : Option String, ∀ tickMs : Option Nat,
      id ∈ st.pending → (handleRes st id true true errMsg tickMs).1.reconnectDelay = 1000) ∧
    (∀ n : Nat,
      (failedAttempt^[n + 1] initGW).reconnectTimer = some (min (2 ^ n * 1000) 30000) ∧
      (failedAttempt^[n + 1] initGW).reconnectDelay = min (2 ^ (n + 1) * 1000) 30000) := by
  refine ⟨rfl, rfl, ?_, ?_, ?_, ?_⟩
  · intro st h
    simp [scheduleReconnect, h, maxReconnectDelay]
  · intro st d h
    simp [scheduleReconnect, h]
  · intro st id errMsg tickMs h
    simp [handleRes, h, onConnected]
  · intro n
    induction n with
    | zero => decide
    | succ m ih =>
      obtain ⟨iht, ihd⟩ := ih
      have hfa := failedAttempt_reconnect (failedAttempt^[m + 1] initGW)
      rw [Function.iterate_succ_apply']
      refine ⟨?_, ?_⟩
      · rw [hfa.1, ihd]
      · rw [hfa.2, ihd, maxReconnectDelay, min_double_ceiling]
        congr 1
        ring
/-- Witness for C3, at concrete states: scheduling from the initial state
arms a 1s timer and doubles the delay; rescheduling is then a no-op; a
`hello-ok` response for a pending id resets the delay; two consecutive
failures arm a 2s timer. -/
theorem gateway_backoff_witness :
    (scheduleReconnect initGW).reconnectTimer = some initGW.reconnectDelay ∧
    scheduleReconnect (scheduleReconnect initGW) = scheduleReconnect initGW ∧
    (handleRes { initGW with pending := ["pa-1"] } "pa-1" true true none none).1.reconnectDelay = 1000 ∧
    (failedAttempt^[2] initGW).reconnectTimer = some (min (2 ^ 1 * 1000) 30000) := by
  refine ⟨(gateway_backoff.2.2.1 initGW rfl).1, ?_, ?_, (gateway_backoff.2.2.2.2.2 1).1⟩
  · exact gateway_backoff.2.2.2.1 (scheduleReconnect initGW) 1000
      (gateway_backoff.2.2.1 initGW rfl).1
  · exact gateway_backoff.2.2.2.2.1 { initGW with pending := ["pa-1"] } "pa-1" none none
      (by decide)

theorem handleRes_not_pending (st : GWState) (id : String) (ok helloOk : Bool)
    (errMsg : Option String) (tickMs : Option Nat) (h : id ∉ st.pending) :
    handleRes st id ok helloOk errMsg tickMs = (st, []) := by
  simp [handleRes, h]

theorem expireRequest_not_pending (st : GWState) (id method : String)
    (h : id ∉ st.pending) : expireRequest st id method = (st, []) := by
  simp [expireRequest, h]

/-- Claim C4: a response for a pending id settles it exactly once — it is
removed from the pending set, exactly one outcome (resolve on ok, reject
on error) is produced, and a second response or the timeout for the same
id is then a no-op; a response or timeout for an id not in the pending set
changes nothing and produces no outcome. -/
theorem gateway_pending_once (st : GWState) (id : String) (ok helloOk ok2 helloOk2 : Bool)
    (errMsg errMsg2 : Option String) (tickMs tickMs2 : Option Nat) (method : String)
    (hnd : st.pending.Nodup) :
    (id ∉ st.pending →
      handleRes st id ok helloOk errMsg tickMs = (st, []) ∧
      expireRequest st id method = (st, [])) ∧
    (id ∈ st.pending →
      (handleRes st id ok helloOk errMsg tickMs).1.pending = st.pending.erase id ∧
      id ∉ (handleRes st id ok helloOk errMsg tickMs).1.pending ∧
      (handleRes st id ok helloOk errMsg tickMs).2 =
        [if ok then ReqOutcome.resolved id
         else ReqOutcome.rejected id (errMsg.getD "Request failed")] ∧
      handleRes (handleRes st id ok helloOk errMsg tickMs).1 id ok2 helloOk2 errMsg2 tickMs2 =
        ((handleRes st id ok helloOk errMsg tickMs).1, []) ∧
      expireRequest (handleRes st id ok helloOk errMsg tickMs).1 id method =
        ((handleRes st id ok helloOk errMsg tickMs).1, []) ∧
      (expireRequest st id method).1.pending = st.pending.erase id ∧
      (expireRequest st id method).2 =
        [ReqOutcome.rejected id ("Request " ++ method ++ " timed out")]) := by
  constructor
  · intro h
    exact ⟨handleRes_not_pending st id ok helloOk errMsg tickMs h,
           expireRequest_not_pending st id method h⟩
  · intro h
    have hpend : (handleRes st id ok helloOk errMsg tickMs).1.pending = st.pending.erase id := by
      cases ok <;> cases helloOk <;> simp [handleRes, h, onConnected]
    have hnot : id ∉ (handleRes st id ok helloOk errMsg tickMs).1.pending := by
      rw [hpend]
      exact List.Nodup.not_mem_erase hnd
    refine ⟨hpend, hnot, ?_, ?_, ?_, ?_, ?_⟩
    · cases ok <;> cases helloOk <;> simp [handleRes, h, onConnected]
    · exact handleRes_not_pending _ id ok2 helloOk2 errMsg2 tickMs2 hnot
    · exact expireRequest_not_pending _ id method hnot
    · simp [expireRequest, h]
    · simp [expireRequest, h]
/-- Witness for C4: one pending id `pa-1`, settled by an ok response,
and an unknown id `pa-9`, at the concrete state. -/
theorem gateway_pending_once_witness :
    ("pa-1" ∈ ({ initGW with pending := ["pa-1"] } : GWState).pending ∧
      (handleRes { initGW with pending := ["pa-1"] } "pa-1" true false none none).1.pending =
        (["pa-1"] : List String).erase "pa-1") ∧
    ("pa-9" ∉ ({ initGW with pending := ["pa-1"] } : GWState).pending ∧
      handleRes { initGW with pending := ["pa-1"] } "pa-9" true false none none =
        ({ initGW with pending := ["pa-1"] }, [])) := by
  constructor
  · exact ⟨by decide,
      ((gateway_pending_once { initGW with pending := ["pa-1"] } "pa-1" true false true false
        none none none none "m" (by decide)).2 (by decide)).1⟩
  · exact ⟨by decide,
      ((gateway_pending_once { initGW with pending := ["pa-1"] } "pa-9" true false true false
        none none none none "m" (by decide)).1 (by decide)).1⟩

/-- Claim C7: `disconnect()` cancels any armed reconnect timer, stops the
keepalive, releases the socket, forces the state to `disconnected`,
rejects every pending request with "Connection closed", and leaves the
pending set empty. -/
theorem gateway_disconnect (st : GWState) :
    (disconnectGW st).1.reconnectTimer = none ∧
    (disconnectGW st).1.tickTimer = none ∧
    (disconnectGW st).1.ws = false ∧
    (disconnectGW st).1.conn = GatewayConnState.disconnected ∧
    (disconnectGW st).1.pending = [] ∧
    (disconnectGW st).2 = st.pending.map (fun id => ReqOutcome.rejected id "Connection closed") := by
  simp [disconnectGW, cleanupGW]

/-- Claim C5: tool status formatting is a pure function of tool name and
input: `formatToolStatus "Bash" {command := "npm run test"}` is
`"Running: npm run test"`; `formatToolStatus "Read" {file_path := "/a/b/c.md"}`
is `"Reading c.md"`; any Bash command of 90 characters yields `"Running: "`
followed by the first 60 characters and an ellipsis; any tool name outside
the known set yields `"Using <name>"`. -/
theorem formatToolStatus_spec :
    formatToolStatus "Bash" { command := some "npm run test" } = "Running: npm run test" ∧
    formatToolStatus "Read" { file_path := some "/a/b/c.md" } = "Reading c.md" ∧
    (∀ cmd : String, cmd.length = 90 →
      formatToolStatus "Bash" { command := some cmd } = "Running: " ++ (cmd.take 60 ++ "…")) ∧
    (∀ toolName : String, ∀ input : ToolInput, toolName ∉ knownToolNames →
      formatToolStatus toolName input = "Using " ++ toolName) := by
  refine ⟨by decide, by decide, ?_, ?_⟩
  · intro cmd h
    simp [formatToolStatus, h]
  · intro toolName input h
    simp only [knownToolNames, List.mem_cons, List.not_mem_nil, or_false, not_or] at h
    obtain ⟨h1, h2, h3, h4, h5, h6, h7, h8, h9, h10, h11, h12, h13⟩ := h
    simp [formatToolStatus, h1, h2, h3, h4, h5, h6, h7, h8, h9, h10, h11, h12, h13]

/-- Witness for C5: a concrete 90-character command and a concrete unknown
tool name, evaluated through `formatToolStatus_spec`. -/
theorem formatToolStatus_spec_witness :
    formatToolStatus "Bash"
        { command := some "abcdefghijabcdefghijabcdefghijabcdefghijabcdefghijabcdefghijabcdefghijabcdefghijabcdefghij" } =
      "Running: " ++
        ("abcdefghijabcdefghijabcdefghijabcdefghijabcdefghijabcdefghijabcdefghijabcdefghijabcdefghij".take 60 ++ "…") ∧
    formatToolStatus "Oracle" {} = "Using " ++ "Oracle" := by
  exact ⟨formatToolStatus_spec.2.2.1 _ (by decide),
         formatToolStatus_spec.2.2.2 "Oracle" {} (by decide)⟩

theorem postAll_closed (ms : List String) : ∀ st : WsClientState, st.wsOpen = false →
    st.sendBuffer.length ≤ maxBufferSize →
    (postAll st ms).wsOpen = false ∧
    (postAll st ms).sendBuffer =
      (st.sendBuffer ++ ms).drop ((st.sendBuffer ++ ms).length - maxBufferSize) := by
  induction ms with
  | nil =>
    intro st hopen hlen
    refine ⟨hopen, ?_⟩
    simp [postAll, Nat.sub_eq_zero_of_le hlen]
  | cons m ms ih =>
    intro st hopen hlen
    have hstep : postAll st (m :: ms) = postAll (postMessage st m).1 ms := rfl
    have hopen1 : (postMessage st m).1.wsOpen = false := by
      simp [postMessage, hopen]
    by_cases hc : maxBufferSize < st.sendBuffer.length + 1
    · have hlen100 : st.sendBuffer.length = maxBufferSize := by omega
      have hbuf1 : (postMessage st m).1.sendBuffer = (st.sendBuffer ++ [m]).drop 1 := by
        simp [postMessage, hopen, hc, List.drop_one]
      have hlen1 : (postMessage st m).1.sendBuffer.length ≤ maxBufferSize := by
        rw [hbuf1]
        simp only [List.length_drop, List.length_append, List.length_cons, List.length_nil]
        omega
      obtain ⟨ho, hb⟩ := ih (postMessage st m).1 hopen1 hlen1
      rw [hstep]
      refine ⟨ho, ?_⟩
      rw [hb, hbuf1,
          ← List.drop_append_of_le_length (by simp : 1 ≤ (st.sendBuffer ++ [m]).length),
          List.drop_drop]
      have hassoc : (st.sendBuffer ++ [m]) ++ ms = st.sendBuffer ++ m :: ms := by
        simp
      rw [hassoc]
      congr 1
      simp only [List.length_drop, List.length_append, List.length_cons, List.length_nil]
      unfold maxBufferSize at hlen100 ⊢
      omega
    · have hbuf1 : (postMessage st m).1.sendBuffer = st.sendBuffer ++ [m] := by
        simp [postMessage, hopen, hc]
      have hlen1 : (postMessage st m).1.sendBuffer.length ≤ maxBufferSize := by
        rw [hbuf1]
        simp only [List.length_append, List.length_cons, List.length_nil]
        omega
      obtain ⟨ho, hb⟩ := ih (postMessage st m).1 hopen1 hlen1
      rw [hstep]
      refine ⟨ho, ?_⟩
      rw [hb, hbuf1]
      have hassoc : (st.sendBuffer ++ [m]) ++ ms = st.sendBuffer ++ m :: ms := by
        simp
      rw [hassoc]

/-- Claim C9: messages posted while the observer-side client is
disconnected accumulate in a bounded FIFO buffer (capacity
`maxBufferSize`), the oldest being dropped first once the capacity is
exceeded: after posting `ms` from an empty buffer, the buffer holds
exactly the last `maxBufferSize` messages of `ms` in their original
order; on the next successful connect they are flushed in that order
(followed by the client's own `webviewReady`) and the buffer is empty. -/
theorem ws_buffer_fifo (ms : List String) (st : WsClientState)
    (hopen : st.wsOpen = false) (hbuf : st.sendBuffer = []) :
    (postAll st ms).sendBuffer = ms.drop (ms.length - maxBufferSize) ∧
    (postAll st ms).sendBuffer.length ≤ maxBufferSize ∧
    (onOpen (postAll st ms)).1.sendBuffer = [] ∧
    (onOpen (postAll st ms)).2 = ms.drop (ms.length - maxBufferSize) ++ ["webviewReady"] := by
  have hlen0 : st.sendBuffer.length ≤ maxBufferSize := by
    rw [hbuf]
    simp [maxBufferSize]
  obtain ⟨ho, hb⟩ := postAll_closed ms st hopen hlen0
  rw [hbuf] at hb
  simp only [List.nil_append] at hb
  refine ⟨hb, ?_, ?_, ?_⟩
  · rw [hb]
    simp only [List.length_drop]
    omega
  · simp [onOpen, postMessage]
  · simp [onOpen, postMessage, hb]

/-- Witness for C9: posting two messages from the fresh disconnected
state buffers both; connecting flushes them in order. -/
theorem ws_buffer_fifo_witness :
    (postAll ⟨false, 1000, []⟩ ["m1", "m2"]).sendBuffer =
      (["m1", "m2"] : List String).drop ((["m1", "m2"] : List String).length - maxBufferSize) ∧
    (postAll ⟨false, 1000, []⟩ ["m1", "m2"]).sendBuffer.length ≤ maxBufferSize ∧
    (onOpen (postAll ⟨false, 1000, []⟩ ["m1", "m2"])).1.sendBuffer = [] ∧
    (onOpen (postAll ⟨false, 1000, []⟩ ["m1", "m2"])).2 =
      (["m1", "m2"] : List String).drop ((["m1", "m2"] : List String).length - maxBufferSize) ++
        ["webviewReady"] := by
  exact ws_buffer_fifo ["m1", "m2"] ⟨false, 1000, []⟩ rfl rfl

theorem openToolStarts_eq (id : Nat) (hist : List TrackedTool) :
    (hist.flatMap fun tool =>
      if tool.done then []
      else [DashboardMessage.agentToolStart id tool.toolId tool.status]) =
    (hist.filter fun tool => !tool.done).map
      (fun tool => DashboardMessage.agentToolStart id tool.toolId tool.status) := by
  induction hist with
  | nil => rfl
  | cons t ts ih => cases ht : t.done <;> simp [ht, ih]

theorem snapshot_replay_filter (agents : List TrackedAgent) :
    ((agents.flatMap fun agent =>
        if agent.status = AgentStatus.busy then
          DashboardMessage.agentStatus agent.id "active" ::
            agent.toolHistory.flatMap (fun tool =>
              if tool.done then []
              else [DashboardMessage.agentToolStart agent.id tool.toolId tool.status])
        else if agent.status = AgentStatus.error then
          [DashboardMessage.agentStatus agent.id "error"]
        else []).filter claimSnapshotKind) = agents.flatMap specAgentReplay := by
  induction agents with
  | nil => rfl
  | cons a as ih =>
    rw [List.flatMap_cons, List.flatMap_cons, List.filter_append, ih]
    congr 1
    by_cases hb : a.status = AgentStatus.busy
    · rw [if_pos hb, specAgentReplay, if_pos hb, openToolStarts_eq]
      apply List.filter_eq_self.mpr
      intro m hm
      rcases List.mem_cons.1 hm with h | h
      · rw [h]
        rfl
      · obtain ⟨tool, _, hmem⟩ := List.mem_map.1 h
        rw [← hmem]
        rfl
    · by_cases he : a.status = AgentStatus.error
      · rw [if_neg hb, if_pos he, specAgentReplay, if_neg hb, if_pos he]
        rfl
      · rw [if_neg hb, if_neg he, specAgentReplay, if_neg hb, if_neg he]
        rfl

/-- Claim C6: the snapshot replayed to a newly attached observer keeps
the claimed fixed order — restricted to the message kinds the claim
enumerates (the collaborator-owned `settingsLoaded` / `layoutLoaded`
snapshot messages are interleaved but outside it), the replay is exactly:
asset messages (each only if loadable), then `existingAgents` carrying
every tracked agent's id, then per-agent replay only for busy or error
agents as described by `specAgentReplay`, and finally exactly one
`connectionStatus` with the current gateway state, which is the last
message sent; no `agentToolDone` ever appears in the snapshot. -/
theorem dashboard_snapshot_order (assets : AssetAvailability) (layout : Option Unit)
    (agents : List TrackedAgent) (gw : GatewayConnState) :
    ((sendInitialState assets layout agents gw).filter claimSnapshotKind =
      (if assets.chars then [DashboardMessage.characterSpritesLoaded] else []) ++
      (if assets.floor then [DashboardMessage.floorTilesLoaded] else []) ++
      (if assets.wall then [DashboardMessage.wallTilesLoaded] else []) ++
      (if assets.furniture then [DashboardMessage.furnitureAssetsLoaded] else []) ++
      DashboardMessage.existingAgents (agents.map fun a => a.id) ::
        (agents.flatMap specAgentReplay ++
          [DashboardMessage.connectionStatus gw none])) ∧
    (∀ m ∈ sendInitialState assets layout agents gw, isAgentToolDone m = false) ∧
    (sendInitialState assets layout agents gw).getLast? =
      some (DashboardMessage.connectionStatus gw none) := by
  refine ⟨?_, ?_, ?_⟩
  · rw [sendInitialState]
    rw [List.filter_append, List.filter_append, List.filter_append, List.filter_append,
        List.filter_append, List.filter_append, List.filter_append, List.filter_append,
        snapshot_replay_filter]
    have hchars : (if assets.chars then [DashboardMessage.characterSpritesLoaded] else
        ([] : List DashboardMessage)).filter claimSnapshotKind =
        (if assets.chars then [DashboardMessage.characterSpritesLoaded] else []) := by
      cases assets.chars <;> rfl
    have hfloor : (if assets.floor then [DashboardMessage.floorTilesLoaded] else
        ([] : List DashboardMessage)).filter claimSnapshotKind =
        (if assets.floor then [DashboardMessage.floorTilesLoaded] else []) := by
      cases assets.floor <;> rfl
    have hwall : (if assets.wall then [DashboardMessage.wallTilesLoaded] else
        ([] : List DashboardMessage)).filter claimSnapshotKind =
        (if assets.wall then [DashboardMessage.wallTilesLoaded] else []) := by
      cases assets.wall <;> rfl
    have hfurn : (if assets.furniture then [DashboardMessage.furnitureAssetsLoaded] else
        ([] : List DashboardMessage)).filter claimSnapshotKind =
        (if assets.furniture then [DashboardMessage.furnitureAssetsLoaded] else []) := by
      cases assets.furniture <;> rfl
    rw [hchars, hfloor, hwall, hfurn]
    simp [claimSnapshotKind]
  · intro m hm
    rw [sendInitialState] at hm
    simp only [List.append_assoc, List.mem_append, List.mem_cons, List.mem_singleton,
      List.mem_flatMap, List.not_mem_nil, or_false] at hm
    rcases hm with hm | hm | hm | hm | hm | hm | hm | hm | hm
    · split_ifs at hm with h
      · rw [List.mem_singleton.1 hm]
        rfl
      · exact absurd hm (List.not_mem_nil m)
    · split_ifs at hm with h
      · rw [List.mem_singleton.1 hm]
        rfl
      · exact absurd hm (List.not_mem_nil m)
    · split_ifs at hm with h
      · rw [List.mem_singleton.1 hm]
        rfl
      · exact absurd hm (List.not_mem_nil m)
    · split_ifs at hm with h
      · rw [List.mem_singleton.1 hm]
        rfl
      · exact absurd hm (List.not_mem_nil m)
    · rw [hm]
      rfl
    · rw [hm]
      rfl
    · rw [hm]
      rfl
    · obtain ⟨agent, _, hmem⟩ := hm
      split_ifs at hmem with hb he
      · rcases List.mem_cons.1 hmem with h | h
        · rw [h]
          rfl
        · obtain ⟨tool, _, hmem2⟩ := List.mem_flatMap.1 h
          split_ifs at hmem2 with hd
          · exact absurd hmem2 (List.not_mem_nil m)
          · rw [List.mem_singleton.1 hmem2]
            rfl
      · rw [List.mem_singleton.1 hmem]
        rfl
      · exact absurd hmem (List.not_mem_nil m)
    · rw [hm]
      rfl
  · rw [sendInitialState, List.getLast?_concat]

/-- Witness for C6: the snapshot at a concrete state — character and
wall sprites loadable, one busy agent with one open and one finished
tool — filtered to the claim's kinds, in the claimed order, and ending
in `connectionStatus`. -/
theorem dashboard_snapshot_order_witness :
    ((sendInitialState ⟨true, false, true, false⟩ none
        [{ demoAgent1 with toolHistory :=
            [{ toolId := "t1", name := "Bash", status := "Running: ls", startedAt := 0,
               completedAt := none, done := false, permissionWait := false },
             { toolId := "t0", name := "Read", status := "Reading a", startedAt := 0,
               completedAt := some 1, done := true, permissionWait := false }] }]
        GatewayConnState.connected).filter claimSnapshotKind =
      (if (true : Bool) then [DashboardMessage.characterSpritesLoaded] else []) ++
      (if (false : Bool) then [DashboardMessage.floorTilesLoaded] else []) ++
      (if (true : Bool) then [DashboardMessage.wallTilesLoaded] else []) ++
      (if (false : Bool) then [DashboardMessage.furnitureAssetsLoaded] else []) ++
      DashboardMessage.existingAgents
          ([{ demoAgent1 with toolHistory :=
              [{ toolId := "t1", name := "Bash", status := "Running: ls", startedAt := 0,
                 completedAt := none, done := false, permissionWait := false },
               { toolId := "t0", name := "Read", status := "Reading a", startedAt := 0,
                 completedAt := some 1, done := true, permissionWait := false }] }].map
            fun a => a.id) ::
        (([{ demoAgent1 with toolHistory :=
            [{ toolId := "t1", name := "Bash", status := "Running: ls", startedAt := 0,
               completedAt := none, done := false, permissionWait := false },
             { toolId := "t0", name := "Read", status := "Reading a", startedAt := 0,
               completedAt := some 1, done := true, permissionWait := false }] }].flatMap
            specAgentReplay) ++
          [DashboardMessage.connectionStatus GatewayConnState.connected none])) ∧
    (sendInitialState ⟨true, false, true, false⟩ none
        [{ demoAgent1 with toolHistory :=
            [{ toolId := "t1", name := "Bash", status := "Running: ls", startedAt := 0,
               completedAt := none, done := false, permissionWait := false },
             { toolId := "t0", name := "Read", status := "Reading a", startedAt := 0,
               completedAt := some 1, done := true, permissionWait := false }] }]
        GatewayConnState.connected).getLast? =
      some (DashboardMessage.connectionStatus GatewayConnState.connected none) := by
  have h := dashboard_snapshot_order ⟨true, false, true, false⟩ none
    [{ demoAgent1 with toolHistory :=
        [{ toolId := "t1", name := "Bash", status := "Running: ls", startedAt := 0,
           completedAt := none, done := false, permissionWait := false },
         { toolId := "t0", name := "Read", status := "Reading a", startedAt := 0,
           completedAt := some 1, done := true, permissionWait := false }] }]
    GatewayConnState.connected
  exact ⟨h.1, h.2.2⟩

/-- Claim C2: a `lifecycle.start` whose session key is already tracked
allocates no new id and emits no `agentCreated`: the session map and the
next-id counter are untouched, exactly one `agentStatus(active)` for the
existing id is emitted, and the tracked agent is set busy with the
event's run id and a cleared tool history. -/
theorem translator_start_reuse (st : TranslatorState) (sk : String) (rid errText : Option String)
    (now : Nat) (id : Nat) (agent : TrackedAgent)
    (h1 : lookupA st.sessionToId sk = some id)
    (h2 : lookupA st.agents sk = some agent) :
    (handleLifecycleEvent st ⟨some "start", some sk, rid, errText⟩ now).1.nextAgentId =
      st.nextAgentId ∧
    (handleLifecycleEvent st ⟨some "start", some sk, rid, errText⟩ now).1.sessionToId =
      st.sessionToId ∧
    (handleLifecycleEvent st ⟨some "start", some sk, rid, errText⟩ now).2 =
      [DashboardMessage.agentStatus id "active"] ∧
    lookupA (handleLifecycleEvent st ⟨some "start", some sk, rid, errText⟩ now).1.agents sk =
      some { agent with status := AgentStatus.busy, currentRunId := rid, toolHistory := [] } := by
  refine ⟨?_, ?_, ?_, ?_⟩ <;> simp [handleLifecycleEvent, h1, h2]
  exact lookupA_setA_self st.agents sk _ (by rw [h2]; rfl)

/-- Witness for C2: re-starting the already-tracked session `s` of
`demoState1` keeps id 1, emits only `agentStatus(active)`, and resets the
agent. -/
theorem translator_start_reuse_witness :
    lookupA demoState1.sessionToId "s" = some 1 ∧
    lookupA demoState1.agents "s" = some demoAgent1 ∧
    (handleLifecycleEvent demoState1 ⟨some "start", some "s", some "r2", none⟩ 7).1.nextAgentId =
      demoState1.nextAgentId ∧
    (handleLifecycleEvent demoState1 ⟨some "start", some "s", some "r2", none⟩ 7).2 =
      [DashboardMessage.agentStatus 1 "active"] := by
  have h := translator_start_reuse demoState1 "s" (some "r2") none 7 1 demoAgent1
    (by decide) (by decide)
  exact ⟨by decide, by decide, h.1, h.2.2.1⟩

/-- Claim C8: lifecycle `end`/`error` events, tool events and approval
events whose session key is untracked (or absent) emit nothing and leave
the translator state — agents, session map and next id — unchanged. -/
theorem translator_drops_unknown (st : TranslatorState) (p : LifecyclePayload)
    (q : ToolPayload) (sk : Option String) (now now2 : Nat)
    (hp : p.phase = some "end" ∨ p.phase = some "error")
    (hup : unknownSession st p.sessionKey)
    (huq : unknownSession st q.sessionKey)
    (husk : unknownSession st sk) :
    handleLifecycleEvent st p now = (st, []) ∧
    handleToolEvent st q now2 = (st, []) ∧
    handleApprovalRequest st sk = (st, []) := by
  refine ⟨?_, ?_, ?_⟩
  · cases hsk : p.sessionKey with
    | none => simp [handleLifecycleEvent, hsk]
    | some s =>
      rw [hsk] at hup
      have hup' : lookupA st.sessionToId s = none := hup
      rcases hp with hp | hp <;> simp [handleLifecycleEvent, hsk, hp, hup']
  · cases hq : q.sessionKey with
    | none => simp [handleToolEvent, hq]
    | some s =>
      rw [hq] at huq
      have huq' : lookupA st.sessionToId s = none := huq
      simp [handleToolEvent, hq, huq']
  · cases sk with
    | none => rfl
    | some s =>
      have husk' : lookupA st.sessionToId s = none := husk
      simp [handleApprovalRequest, husk']

/-- Witness for C8: at `demoState1` (which tracks only session `s`), a
lifecycle `end` for unknown session `zz`, a tool event with no session
key, and an approval for unknown session `yy` are all dropped. -/
theorem translator_drops_unknown_witness :
    handleLifecycleEvent demoState1 ⟨some "end", some "zz", none, none⟩ 4 = (demoState1, []) ∧
    handleToolEvent demoState1 ⟨none, some "start", none, {}, none⟩ 4 = (demoState1, []) ∧
    handleApprovalRequest demoState1 (some "yy") = (demoState1, []) := by
  exact translator_drops_unknown demoState1 ⟨some "end", some "zz", none, none⟩
    ⟨none, some "start", none, {}, none⟩ (some "yy") 4 4 (Or.inl rfl)
    (by decide) (by decide) (by decide)

theorem markToolDone_of_not_mem (hist : List TrackedTool) (tid : String) (now : Nat)
    (h : ∀ t ∈ hist, t.toolId ≠ tid) : markToolDone hist tid now = hist := by
  induction hist with
  | nil => rfl
  | cons t ts ih =>
    rw [markToolDone, if_neg (h t (List.mem_cons_self t ts)),
        ih (fun u hu => h u (List.mem_cons_of_mem t hu))]

/-- Counterexample to C10 as stated: in `c10State` the agent's history
holds an open tool with the explicit id `tool-1` while the counter is
still 0; a `tool.end` carrying no tool id generates the fresh counter id
`tool-1`, which does match that previously started tool, and the history
is mutated (the tool is marked done) rather than left unchanged. -/
theorem toolDone_phantom_match_counterexample :
    c10EndPayload.toolId = none ∧
    (handleToolEvent c10State c10EndPayload 0).1.agents ≠ c10State.agents := by
  exact ⟨rfl, by decide⟩

/-- Claim C10 (amended): for a tool `end`/`tool_end` event with a tracked
session key, exactly one `agentToolDone` is emitted even when no history
entry matches the used tool id — when the event carries no tool id the
freshly generated counter id is used, which can still match a previously
started tool whose explicit id equals that string; whenever no history
entry carries the used id, the agent's tool history (indeed the whole
agents map) is left unchanged. -/
theorem toolDone_always_emitted (st : TranslatorState) (p : ToolPayload) (now : Nat)
    (sk : String) (id : Nat)
    (hsk : p.sessionKey = some sk)
    (hid : lookupA st.sessionToId sk = some id)
    (hph : p.phase = some "end" ∨ p.phase = some "tool_end") :
    (handleToolEvent st p now).2 =
      [DashboardMessage.agentToolDone id
        (p.toolId.getD ("tool-" ++ toString (st.toolIdCounter + 1)))] ∧
    (∀ agent, lookupA st.agents sk = some agent →
      (∀ t ∈ agent.toolHistory,
        t.toolId ≠ p.toolId.getD ("tool-" ++ toString (st.toolIdCounter + 1))) →
      (handleToolEvent st p now).1.agents = st.agents) := by
  constructor
  · rcases hph with hp | hp <;>
      cases hag : lookupA st.agents sk <;>
        simp [handleToolEvent, hsk, hid, hp, hag]
  · intro agent hag hnm
    rcases hph with hp | hp <;>
      simp [handleToolEvent, hsk, hid, hp, hag,
        markToolDone_of_not_mem agent.toolHistory _ now hnm] <;>
      exact setA_lookup_self st.agents sk agent hag

/-- Witness for the amended C10: a `tool_end` with explicit unmatched id
`t9` on `demoState1` emits `agentToolDone` and leaves the agents map
unchanged. -/
theorem toolDone_always_emitted_witness :
    (handleToolEvent demoState1 ⟨some "s", some "tool_end", none, {}, some "t9"⟩ 3).2 =
      [DashboardMessage.agentToolDone 1 "t9"] ∧
    (handleToolEvent demoState1 ⟨some "s", some "tool_end", none, {}, some "t9"⟩ 3).1.agents =
      demoState1.agents := by
  have h := toolDone_always_emitted demoState1 ⟨some "s", some "tool_end", none, {}, some "t9"⟩
    3 "s" 1 rfl (by decide) (Or.inr rfl)
  exact ⟨h.1, h.2 demoAgent1 (by decide) (by decide)⟩

theorem handleToolEvent_session_fields (st : TranslatorState) (q : ToolPayload) (now : Nat) :
    (handleToolEvent st q now).1.sessionToId = st.sessionToId ∧
    (handleToolEvent st q now).1.nextAgentId = st.nextAgentId := by
  cases hq : q.sessionKey with
  | none => simp [handleToolEvent, hq]
  | some s =>
    cases hl : lookupA st.sessionToId s with
    | none => simp [handleToolEvent, hq, hl]
    | some id =>
      by_cases h1 : q.phase = some "start" ∨ q.phase = some "tool_start"
      · cases hag : lookupA st.agents s <;> simp [handleToolEvent, hq, hl, h1, hag]
      · by_cases h2 : q.phase = some "end" ∨ q.phase = some "tool_end"
        · cases hag : lookupA st.agents s <;> simp [handleToolEvent, hq, hl, h1, h2, hag]
        · simp [handleToolEvent, hq, hl, h1, h2]

theorem handleApproval_session_fields (st : TranslatorState) (sk : Option String) :
    (handleApprovalRequest st sk).1.sessionToId = st.sessionToId ∧
    (handleApprovalRequest st sk).1.nextAgentId = st.nextAgentId := by
  cases sk with
  | none => exact ⟨rfl, rfl⟩
  | some s =>
    cases hl : lookupA st.sessionToId s with
    | none => simp [handleApprovalRequest, hl]
    | some id => cases hag : lookupA st.agents s <;> simp [handleApprovalRequest, hl, hag]

theorem handleLifecycle_session_fields (st : TranslatorState) (p : LifecyclePayload) (now : Nat) :
    ((handleLifecycleEvent st p now).1.sessionToId = st.sessionToId ∧
     (handleLifecycleEvent st p now).1.nextAgentId = st.nextAgentId) ∨
    (∃ sk : String, p.sessionKey = some sk ∧ lookupA st.sessionToId sk = none ∧
      (handleLifecycleEvent st p now).1.sessionToId =
        st.sessionToId ++ [(sk, st.nextAgentId)] ∧
      (handleLifecycleEvent st p now).1.nextAgentId = st.nextAgentId + 1) := by
  cases hp : p.sessionKey with
  | none =>
    left
    simp [handleLifecycleEvent, hp]
  | some s =>
    by_cases hstart : p.phase = some "start"
    · cases hl : lookupA st.sessionToId s with
      | none =>
        right
        refine ⟨s, rfl, hl, ?_, ?_⟩ <;> simp [handleLifecycleEvent, hp, hstart, hl]
      | some id =>
        left
        cases hag : lookupA st.agents s <;>
          simp [handleLifecycleEvent, hp, hstart, hl, hag]
    · left
      by_cases hend : p.phase = some "end"
      · cases hl : lookupA st.sessionToId s with
        | none => simp [handleLifecycleEvent, hp, hstart, hend, hl]
        | some id =>
          cases hag : lookupA st.agents s <;>
            simp [handleLifecycleEvent, hp, hstart, hend, hl, hag]
      · by_cases herr : p.phase = some "error"
        · cases hl : lookupA st.sessionToId s with
          | none => simp [handleLifecycleEvent, hp, hstart, hend, herr, hl]
          | some id =>
            cases hag : lookupA st.agents s <;>
              simp [handleLifecycleEvent, hp, hstart, hend, herr, hl, hag]
        · simp [handleLifecycleEvent, hp, hstart, hend, herr]

theorem stepTranslator_session_fields (st : TranslatorState) (ev : GatewayEv) :
    ((stepTranslator st ev).1.sessionToId = st.sessionToId ∧
     (stepTranslator st ev).1.nextAgentId = st.nextAgentId) ∨
    (∃ sk : String, lookupA st.sessionToId sk = none ∧
      (stepTranslator st ev).1.sessionToId = st.sessionToId ++ [(sk, st.nextAgentId)] ∧
      (stepTranslator st ev).1.nextAgentId = st.nextAgentId + 1) := by
  cases ev with
  | lifecycle p now =>
    rcases handleLifecycle_session_fields st p now with h | ⟨sk, _, hn, h1, h2⟩
    · exact Or.inl h
    · exact Or.inr ⟨sk, hn, h1, h2⟩
  | tool q now => exact Or.inl (handleToolEvent_session_fields st q now)
  | approval sk => exact Or.inl (handleApproval_session_fields st sk)

theorem goodIds_step (st : TranslatorState) (ev : GatewayEv) (h : GoodIds st) :
    GoodIds (stepTranslator st ev).1 := by
  obtain ⟨hvals, hnext, hkeys⟩ := h
  rcases stepTranslator_session_fields st ev with ⟨h1, h2⟩ | ⟨sk, hnone, h1, h2⟩
  · exact ⟨by rw [h1, hvals], by rw [h2, h1, hnext], by rw [h1]; exact hkeys⟩
  · refine ⟨?_, ?_, ?_⟩
    · rw [h1, List.map_append, List.length_append, hvals, hnext]
      simp only [List.map_cons, List.map_nil, List.length_cons, List.length_nil]
      rw [List.range'_1_concat]
      simp [Nat.add_comm]
    · rw [h2, h1, List.length_append, hnext]
      simp
    · rw [h1, List.map_append]
      have hout : sk ∉ st.sessionToId.map Prod.fst := (lookupA_eq_none_iff _ _).1 hnone
      simp [List.nodup_append, hkeys, hout]

theorem stepTranslator_sessionToId_extends (st : TranslatorState) (ev : GatewayEv) :
    st.sessionToId <+: (stepTranslator st ev).1.sessionToId := by
  rcases stepTranslator_session_fields st ev with ⟨h1, _⟩ | ⟨sk, _, h1, _⟩
  · rw [h1]
  · rw [h1]
    exact List.prefix_append _ _

theorem runTranslator_append (st : TranslatorState) (evs evs2 : List GatewayEv) :
    runTranslator st (evs ++ evs2) = runTranslator (runTranslator st evs) evs2 := by
  induction evs generalizing st with
  | nil => rfl
  | cons e es ih => simp [runTranslator, ih]

theorem runTranslator_good (evs : List GatewayEv) :
    ∀ st : TranslatorState, GoodIds st → GoodIds (runTranslator st evs) := by
  induction evs with
  | nil => exact fun st h => h
  | cons e es ih => exact fun st h => ih _ (goodIds_step st e h)

theorem runTranslator_sessionToId_extends (evs : List GatewayEv) :
    ∀ st : TranslatorState, st.sessionToId <+: (runTranslator st evs).sessionToId := by
  induction evs with
  | nil => exact fun st => List.prefix_rfl
  | cons e es ih =>
    intro st
    exact List.IsPrefix.trans (stepTranslator_sessionToId_extends st e) (ih _)

/-- Claim C1: over any sequence of gateway events processed from the
fresh translator, the `sessionKey → id` entries carry exactly the ids
`1, 2, …, n` in insertion order (so distinct session keys receive
distinct, monotonically increasing ids starting at 1), no session key
occurs twice, and the map is append-only: whatever events are processed
afterwards, the current entries persist unchanged as a prefix. -/
theorem translator_id_assignment (evs : List GatewayEv) :
    ((runTranslator initTranslator evs).sessionToId.map Prod.snd =
      List.range' 1 (runTranslator initTranslator evs).sessionToId.length) ∧
    ((runTranslator initTranslator evs).sessionToId.map Prod.fst).Nodup ∧
    (∀ evs2 : List GatewayEv,
      (runTranslator initTranslator evs).sessionToId <+:
        (runTranslator initTranslator (evs ++ evs2)).sessionToId) := by
  have hg : GoodIds (runTranslator initTranslator evs) :=
    runTranslator_good evs initTranslator ⟨rfl, rfl, List.nodup_nil⟩
  refine ⟨hg.1, hg.2.2, ?_⟩
  intro evs2
  rw [runTranslator_append]
  exact runTranslator_sessionToId_extends evs2 (runTranslator initTranslator evs)

end PixelAgents
